import Mathlib

/-!
Verification development for `makina404.py`, a subdomain-takeover scanner.

The scanner enumerates subdomains per root domain (via the external
`rapiddns` tool), probes each candidate over HTTPS then HTTP under a
100-slot semaphore, and for any candidate answering HTTP 404 captures a
browser screenshot under a 5-slot semaphore and posts a Discord alert.

We shallowly embed the control flow of the three core coroutines
(`check_subdomain`, `take_screenshot`, `run_rapiddns`) and of `main` as
pure functions over stubbed external behaviours (the HTTP layer, the
browser, the enumeration tool), producing explicit event traces, and we
model the two `asyncio.Semaphore` pools as a transition system.
-/

/-- The two protocols tried by `check_subdomain`, in the order of the
Python list `protocols = ['https', 'http']` (line 139). -/
inductive Proto
  | https
  | http
deriving DecidableEq, Repr

/-- Outcome of one `client.get` call as seen by the except-clauses of
`check_subdomain` (lines 144, 159-181): a returned response with a status
code, an `httpx.HTTPStatusError` carrying a response status, a
`TimeoutException`, a `ConnectError`/`NetworkError`, `TooManyRedirects`,
or any other exception. -/
inductive HttpResult
  | status (code : Nat)
  | statusError (code : Nat)
  | timeout
  | connectError
  | tooManyRedirects
  | otherError
deriving DecidableEq, Repr

/-- How far a `take_screenshot` invocation gets before an exception, or
full success with the screenshot bytes (modelled as a `Nat` payload).
`ctxFail`: `browser.new_context` raises; `pageFail`: `context.new_page`
raises; `gotoFail`: `page.goto` raises (navigation error / timeout);
`shotFail`: `page.screenshot` raises. -/
inductive CapBehavior
  | ctxFail
  | pageFail
  | gotoFail
  | shotFail
  | success (bytes : Nat)
deriving DecidableEq, Repr

/-- Events emitted by the embedded `take_screenshot` (lines 99-133).
An event records a successfully completed operation; an operation that
raises emits no event. `acqCap`/`relCap` bracket the
`async with browser_semaphore` block. -/
inductive CapEvent
  | acqCap
  | ctxOpen
  | pageOpen
  | gotoNav
  | shot
  | pageClose
  | ctxClose
  | relCap
deriving DecidableEq, Repr

/-- Embedding of `take_screenshot` (lines 99-133): under the browser
semaphore it opens a context, opens a page, navigates, screenshots, then
on the success path closes page then context inside the `try`; the
`finally` closes the page if it is set and not already closed — the
context is NOT closed in the `finally` (the source comment on line 131
notes it is closed only within the `try` on success). Returns the event
trace and the `screenshot_bytes` result (`None` on any failure). -/
def take_screenshot (b : CapBehavior) : List CapEvent × Option Nat :=
  match b with
  | .ctxFail => ([.acqCap, .relCap], none)
  | .pageFail => ([.acqCap, .ctxOpen, .relCap], none)
  | .gotoFail => ([.acqCap, .ctxOpen, .pageOpen, .pageClose, .relCap], none)
  | .shotFail => ([.acqCap, .ctxOpen, .pageOpen, .gotoNav, .pageClose, .relCap], none)
  | .success n =>
      ([.acqCap, .ctxOpen, .pageOpen, .gotoNav, .shot, .pageClose, .ctxClose, .relCap],
       some n)

/-- Events emitted by the embedded `check_subdomain` (lines 136-185) for
one candidate: probe-semaphore acquisition/release for a protocol
attempt, the `client.get` call, the events of an inner `take_screenshot`
call, and a `send_to_discord` call. -/
inductive PEvent
  | acqProbe (p : Proto)
  | get (p : Proto)
  | capE (p : Proto) (e : CapEvent)
  | alert (p : Proto)
  | relProbe (p : Proto)
deriving DecidableEq, Repr

/-- Whether a `client.get` outcome is handled by the 404 branches of
`check_subdomain` (line 147: `response.status_code == 404`; line 161:
`e.response.status_code == 404` for `HTTPStatusError`). Every other
outcome — any other status, timeout, connection error, too many
redirects, or any other exception — reaches the end of the loop body and
the `for proto in protocols` loop moves on to the next protocol. -/
def is404 : HttpResult → Bool
  | .status c => c == 404
  | .statusError c => c == 404
  | _ => false

/-- One protocol attempt of `check_subdomain` (lines 140-181): acquire
the httpx semaphore, issue the GET; on a 404 run `take_screenshot`,
alert iff it returned bytes, then `return` (which releases the semaphore
on the way out, so capture and alert happen inside the held slot); on
any other outcome release the slot and let the loop continue. The `Bool`
is whether the function returned (terminating the candidate). -/
def attempt (p : Proto) (r : HttpResult) (cb : CapBehavior) : List PEvent × Bool :=
  if is404 r then
    (PEvent.acqProbe p :: PEvent.get p ::
      ((take_screenshot cb).1.map (PEvent.capE p) ++
        (match (take_screenshot cb).2 with
         | some _ => [PEvent.alert p]
         | none => []) ++ [PEvent.relProbe p]), true)
  else
    ([PEvent.acqProbe p, PEvent.get p, PEvent.relProbe p], false)

/-- Embedding of `check_subdomain` (lines 136-185): the HTTPS attempt,
then — unless the HTTPS attempt returned — the HTTP attempt. `f` stubs
the HTTP layer (result of `client.get` per protocol), `cb` stubs the
browser. -/
def check_subdomain (f : Proto → HttpResult) (cb : CapBehavior) : List PEvent :=
  if (attempt .https (f .https) cb).2 then
    (attempt .https (f .https) cb).1
  else
    (attempt .https (f .https) cb).1 ++ (attempt .http (f .http) cb).1

/-- The spec-level final outcome of a candidate, derived from the
control flow of `check_subdomain`: the function returns exactly when a
protocol's GET is classified 404 (Confirmed404 for the first such
protocol); if the loop exhausts both protocols the candidate ends with
no detection (the spec's `Abandoned`). The code reaches no terminal
`Benign` state: a non-404 status merely lets the loop continue. -/
inductive ProbeOutcome
  | confirmed404 (p : Proto)
  | abandoned
deriving DecidableEq, Repr

/-- Final outcome of `check_subdomain` for stub `f`, per the control
flow above. -/
def probeOutcome (f : Proto → HttpResult) : ProbeOutcome :=
  if is404 (f .https) then .confirmed404 .https
  else if is404 (f .http) then .confirmed404 .http
  else .abandoned

/-- Number of `take_screenshot` invocations visible in a trace: each
invocation acquires the browser semaphore exactly once on entry. -/
def captureCount (t : List PEvent) : Nat :=
  (t.filter (fun e =>
    match e with
    | .capE _ .acqCap => true
    | _ => false)).length

/-- Number of `send_to_discord` invocations visible in a trace. -/
def alertCount (t : List PEvent) : Nat :=
  (t.filter (fun e =>
    match e with
    | .alert _ => true
    | _ => false)).length

/-- Python strings are embedded as their character lists, so that every
operation below is structurally recursive and computable by the
kernel. -/
abbrev PyStr := List Char

/-- Python's `str.strip()` with no argument: remove whitespace from both
ends. -/
def pyStrip (s : PyStr) : PyStr :=
  ((s.dropWhile Char.isWhitespace).reverse.dropWhile Char.isWhitespace).reverse

/-- Python's `str.startswith(c)` for a one-character prefix. -/
def pyStartsWith (c : Char) (s : PyStr) : Bool :=
  match s with
  | [] => false
  | a :: _ => a == c

/-- Python's `str.endswith(c)` for a one-character suffix. -/
def pyEndsWith (c : Char) (s : PyStr) : Bool :=
  pyStartsWith c s.reverse

/-- Result of invoking the external `rapiddns` subprocess, as seen by
`run_rapiddns` (lines 44-70): the process ran and exited with a code,
stdout (modelled as its list of lines) and stderr text; or the binary
was not found (`FileNotFoundError`); or some other exception occurred. -/
inductive ToolResult
  | exited (code : Nat) (stdoutLines : List PyStr) (stderrText : PyStr)
  | notFound
  | raised
deriving DecidableEq, Repr

/-- What `run_rapiddns` does for one domain: return a candidate list, or
abort the whole process via `sys.exit` with the given code. -/
inductive RapidResult
  | subs (l : List PyStr)
  | fatalExit (code : Nat)
deriving DecidableEq, Repr

/-- The stderr-logging line emitted on a non-zero tool exit
(line 53). -/
def rapidErrLog (domain err : PyStr) : PyStr :=
  "[!] Error running rapiddns for ".data ++ domain ++ ": ".data ++ pyStrip err

/-- Embedding of `run_rapiddns` (lines 39-72): on non-zero exit, log the
captured stderr text and return an empty list (line 52-54); on zero
exit, trim each stdout line, drop empties, deduplicate into a set
(lines 56-63); on `FileNotFoundError` for the binary, log and
`sys.exit(1)` (lines 65-68); on any other exception, log and return the
(empty) accumulated set (lines 69-72). Returns the log lines paired
with the result. -/
def run_rapiddns (domain : PyStr) (r : ToolResult) : List PyStr × RapidResult :=
  match r with
  | .exited code out err =>
      if code ≠ 0 then
        ([rapidErrLog domain err], .subs [])
      else
        ([], .subs (((out.map pyStrip).filter (fun s => !s.isEmpty)).dedup))
  | .notFound =>
      (["[!] Error: rapiddns command not found".data], .fatalExit 1)
  | .raised =>
      (["[!] Exception running rapiddns for ".data ++ domain], .subs [])

/-- The candidate-eligibility test of `main` (line 232): a subdomain is
skipped unless it is non-empty, contains a `.`, and neither starts nor
ends with `.`. -/
def validSub (s : PyStr) : Bool :=
  !(s.isEmpty || !s.contains '.' || pyStartsWith '.' s || pyEndsWith '.' s)

/-- The input-file parse of `main` (line 193): keep lines whose strip is
non-empty and that do not start with `#` (the startswith test is on the
raw line), and strip the kept lines. -/
def parseDomains (lines : List PyStr) : List PyStr :=
  (lines.filter (fun l => !(pyStrip l).isEmpty && !pyStartsWith '#' l)).map pyStrip

/-- The stubbed environment `main` runs against: the input file's lines
(`none` = `FileNotFoundError`), whether `p.chromium.launch()` succeeds,
and the behaviour of the `rapiddns` subprocess per domain. -/
structure Env where
  inputFile : Option (List PyStr)
  browserLaunches : Bool
  tool : PyStr → ToolResult

/-- The sequential enumeration loop of `main` (lines 226-236): for each
target domain in order, run `run_rapiddns`; a fatal tool failure raises
`SystemExit` there, aborting the loop; otherwise the valid subdomains
found are scheduled as `check_subdomain` tasks and the loop continues.
Returns (domains actually enumerated, subdomains scheduled, fatal exit
code if any). -/
def enumLoop : List PyStr → (PyStr → ToolResult) → List PyStr × List PyStr × Option Nat
  | [], _ => ([], [], none)
  | d :: rest, tool =>
      match (run_rapiddns d (tool d)).2 with
      | .fatalExit c => ([d], [], some c)
      | .subs subs =>
          let r := enumLoop rest tool
          (d :: r.1, subs.filter validSub ++ r.2.1, r.2.2)

/-- Observable result of a `main` run: the process exit code, the
domains for which enumeration was invoked, and the candidates for which
a `check_subdomain` task was created. -/
structure RunResult where
  exitCode : Nat
  enumerated : List PyStr
  scheduled : List PyStr
deriving DecidableEq, Repr

/-- Embedding of `main` (lines 189-255) and the process boundary
(line 264): a missing input file prints an error and returns from
`main`, so `asyncio.run` completes and the process exits 0
(lines 194-196); an empty target list likewise returns (lines 198-200);
a browser-launch failure is caught by the `except PlaywrightError`
handler (lines 245-247) and `main` again returns normally, exit 0; a
missing `rapiddns` binary calls `sys.exit(1)` inside the enumeration
loop, and the `SystemExit` (a `BaseException`) is not caught by the
`except Exception` handler, so the process exits 1; otherwise the run
completes and exits 0. -/
def mainRun (env : Env) : RunResult :=
  match env.inputFile with
  | none => ⟨0, [], []⟩
  | some lines =>
      let targets := parseDomains lines
      if targets.isEmpty then ⟨0, [], []⟩
      else if !env.browserLaunches then ⟨0, [], []⟩
      else
        let r := enumLoop targets env.tool
        match r.2.2 with
        | some c => ⟨c, r.1, r.2.1⟩
        | none => ⟨0, r.1, r.2.1⟩

/-- Capture-pool capacity: `SCREENSHOT_CONCURRENCY = 5` (line 23),
the size of `browser_semaphore` (line 34). -/
def SCREENSHOT_CONCURRENCY : Nat := 5

/-- Probe-pool capacity: `HTTPX_CONCURRENCY = 100` (line 25), the size
of `httpx_semaphore` (line 35). -/
def HTTPX_CONCURRENCY : Nat := 100

/-- Joint state of the two `asyncio.Semaphore` pools: the number of
slots currently held in each. -/
structure PoolState where
  probeHeld : Nat
  capHeld : Nat
deriving DecidableEq, Repr

/-- Transition semantics of the two pools as used by the tasks:
`asyncio.Semaphore.acquire` is enabled only while the pool is below
capacity — a task calling it at capacity suspends (no transition fires
for it) and never fails — and `release` requires a held slot (every
release in the code is the exit of an `async with` block). -/
inductive PoolStep : PoolState → PoolState → Prop
  | acqProbe (s : PoolState) (h : s.probeHeld < HTTPX_CONCURRENCY) :
      PoolStep s ⟨s.probeHeld + 1, s.capHeld⟩
  | relProbe (s : PoolState) (h : 0 < s.probeHeld) :
      PoolStep s ⟨s.probeHeld - 1, s.capHeld⟩
  | acqCap (s : PoolState) (h : s.capHeld < SCREENSHOT_CONCURRENCY) :
      PoolStep s ⟨s.probeHeld, s.capHeld + 1⟩
  | relCap (s : PoolState) (h : 0 < s.capHeld) :
      PoolStep s ⟨s.probeHeld, s.capHeld - 1⟩

/-- Initial pool state: both semaphores start with no slot held
(lines 34-35). -/
def initPool : PoolState := ⟨0, 0⟩

/-- States the two pools can reach during a run. -/
def poolReachable (s : PoolState) : Prop :=
  Relation.ReflTransGen PoolStep initPool s

/-- Is a trace event a step of a capture (`take_screenshot`) or an
alert (`send_to_discord`) for the candidate? -/
def isCapOrAlert : PEvent → Bool
  | .capE _ _ => true
  | .alert _ => true
  | _ => false

/-- Number of probe-semaphore acquisitions in a trace. -/
def acqProbeCount (t : List PEvent) : Nat :=
  (t.filter (fun e =>
    match e with
    | .acqProbe _ => true
    | _ => false)).length

/-- Number of probe-semaphore releases in a trace. -/
def relProbeCount (t : List PEvent) : Nat :=
  (t.filter (fun e =>
    match e with
    | .relProbe _ => true
    | _ => false)).length

/-- C1 (counterexample): with an HTTP layer that times out on HTTPS (and
answers 200 on HTTP), `check_subdomain` DOES fall back to HTTP: the
`except httpx.TimeoutException` handler only prints, after which the
`for proto in protocols` loop advances to `'http'`. The claim that a
timeout is terminal with no HTTP fallback is therefore false. -/
theorem c1_counterexample :
    (fun p => match p with
      | Proto.https => HttpResult.timeout
      | Proto.http => HttpResult.status 200) Proto.https = HttpResult.timeout ∧
    PEvent.get Proto.http ∈
      check_subdomain (fun p => match p with
        | Proto.https => HttpResult.timeout
        | Proto.http => HttpResult.status 200) CapBehavior.ctxFail := by
  decide

/-- C1 (amended): a timeout on the HTTPS attempt is non-terminal:
`check_subdomain` proceeds to the HTTP attempt; and if the HTTP attempt
is not classified 404 either, the candidate's final outcome is
`Abandoned` with no capture and no alert. -/
theorem c1_timeout_nonterminal (f : Proto → HttpResult) (cb : CapBehavior)
    (h : f .https = .timeout) :
    PEvent.get .http ∈ check_subdomain f cb ∧
    (is404 (f .http) = false →
      probeOutcome f = .abandoned ∧
      captureCount (check_subdomain f cb) = 0 ∧
      alertCount (check_subdomain f cb) = 0) := by
  have h1 : is404 (f .https) = false := by rw [h]; rfl
  constructor
  · cases h2 : is404 (f .http) <;>
      simp [check_subdomain, attempt, h1, h2, captureCount, alertCount]
  · intro h2
    refine ⟨by simp [probeOutcome, h1, h2], ?_⟩
    simp [check_subdomain, attempt, h1, h2, captureCount, alertCount]

/-- C1 witness. -/
theorem c1_timeout_nonterminal_witness :
    PEvent.get .http ∈
      check_subdomain (fun _ => HttpResult.timeout) CapBehavior.ctxFail ∧
    probeOutcome (fun _ => HttpResult.timeout) = .abandoned := by
  have h := c1_timeout_nonterminal (fun _ => HttpResult.timeout) CapBehavior.ctxFail rfl
  exact ⟨h.1, (h.2 rfl).1⟩

/-- C2 (counterexample): with an HTTP layer answering 200 on both
protocols, `check_subdomain` still issues the HTTP request after the
HTTPS one: a non-404 status triggers no `return`, the loop body simply
ends and the loop advances to `'http'`. The claim that any non-404
status is terminal (`Benign`, HTTP not attempted) is therefore false. -/
theorem c2_counterexample :
    (fun _ => HttpResult.status 200) Proto.https = HttpResult.status 200 ∧
    (200 : Nat) ≠ 404 ∧
    PEvent.get Proto.http ∈
      check_subdomain (fun _ => HttpResult.status 200) CapBehavior.ctxFail := by
  decide

/-- C2 (amended): a non-404 HTTPS status is non-terminal: the HTTP
protocol IS subsequently attempted; the code has no terminal `Benign`
state — if the HTTP attempt is also not classified 404, the candidate
merely ends `Abandoned` with no capture. -/
theorem c2_non404_nonterminal (f : Proto → HttpResult) (cb : CapBehavior)
    (c : Nat) (h : f .https = .status c) (hc : c ≠ 404) :
    PEvent.get .http ∈ check_subdomain f cb ∧
    (is404 (f .http) = false →
      probeOutcome f = .abandoned ∧
      captureCount (check_subdomain f cb) = 0) := by
  have h1 : is404 (f .https) = false := by
    rw [h]; simp [is404, hc]
  constructor
  · cases h2 : is404 (f .http) <;>
      simp [check_subdomain, attempt, h1, h2]
  · intro h2
    refine ⟨by simp [probeOutcome, h1, h2], ?_⟩
    simp [check_subdomain, attempt, h1, h2, captureCount]

/-- C2 witness. -/
theorem c2_non404_nonterminal_witness :
    PEvent.get .http ∈
      check_subdomain (fun _ => HttpResult.status 200) CapBehavior.pageFail ∧
    probeOutcome (fun _ => HttpResult.status 200) = .abandoned := by
  have h := c2_non404_nonterminal (fun _ => HttpResult.status 200)
    CapBehavior.pageFail 200 rfl (by decide)
  exact ⟨h.1, (h.2 rfl).1⟩

/-- C3 (counterexample): on the navigation-error exit path of
`take_screenshot` (`page.goto` raises), the `finally` block closes the
page but the browsing context is never closed — `context.close()` is
only reached inside the `try` on full success. The claim that both page
and context are closed on every exit path is therefore false. -/
theorem c3_counterexample :
    CapEvent.ctxOpen ∈ (take_screenshot CapBehavior.gotoFail).1 ∧
    CapEvent.pageClose ∈ (take_screenshot CapBehavior.gotoFail).1 ∧
    CapEvent.ctxClose ∉ (take_screenshot CapBehavior.gotoFail).1 := by
  decide

/-- C3 (amended): on every exit path of `take_screenshot` the capture
slot is released last; whenever a page was opened it is closed before
the slot release; but the browsing context is closed exactly on the
successful path (the one returning screenshot bytes), where the order
is page close, then context close, then slot release. -/
theorem c3_cleanup (b : CapBehavior) :
    (take_screenshot b).1.getLast? = some CapEvent.relCap ∧
    (CapEvent.pageOpen ∈ (take_screenshot b).1 →
      List.Sublist [CapEvent.pageClose, CapEvent.relCap] (take_screenshot b).1) ∧
    (CapEvent.ctxClose ∈ (take_screenshot b).1 ↔
      ((take_screenshot b).2).isSome = true) ∧
    (((take_screenshot b).2).isSome = true →
      List.Sublist [CapEvent.pageClose, CapEvent.ctxClose, CapEvent.relCap]
        (take_screenshot b).1) := by
  cases b <;> simp [take_screenshot] <;> decide

/-- A tool invocation whose binary is found never triggers the fatal
`sys.exit` path of `run_rapiddns`. -/
theorem run_rapiddns_not_fatal (domain : PyStr) (r : ToolResult)
    (h : r ≠ ToolResult.notFound) :
    ∃ l, (run_rapiddns domain r).2 = RapidResult.subs l := by
  cases r with
  | exited code out err =>
      by_cases hc : code ≠ 0
      · exact ⟨[], by simp [run_rapiddns, hc]⟩
      · refine ⟨((out.map pyStrip).filter (fun s => !s.isEmpty)).dedup, ?_⟩
        simp [run_rapiddns, hc]
  | notFound => exact absurd rfl h
  | raised => exact ⟨[], rfl⟩

/-- If no domain's tool invocation hits `FileNotFoundError`, the
enumeration loop finishes without a fatal exit. -/
theorem enumLoop_no_fatal (ds : List PyStr) (tool : PyStr → ToolResult)
    (h : ∀ d, tool d ≠ ToolResult.notFound) :
    (enumLoop ds tool).2.2 = none := by
  induction ds with
  | nil => rfl
  | cons d rest ih =>
      obtain ⟨l, hl⟩ := run_rapiddns_not_fatal d (tool d) (h d)
      simp [enumLoop, hl, ih]

/-- C4 (counterexample): with the input file missing, `main` prints an
error and returns normally, so `asyncio.run(main())` completes and the
process exits 0 — contradicting the claim that a missing input file is
a non-zero-exit fatal condition. -/
theorem c4_counterexample :
    (Env.mk none true (fun _ => ToolResult.exited 0 [] [])).inputFile = none ∧
    (mainRun (Env.mk none true (fun _ => ToolResult.exited 0 [] []))).exitCode = 0 :=
  ⟨rfl, rfl⟩

/-- C4 (amended): the process exits 0 on normal completion (including
zero candidates) and indeed whenever the enumeration tool binary is
found; a missing input file and a browser-launch failure abort the run
but still exit 0; the only non-zero exit is `sys.exit(1)` when the
enumeration tool binary cannot be located. -/
theorem c4_exit_codes (env : Env) :
    ((∀ d, env.tool d ≠ ToolResult.notFound) → (mainRun env).exitCode = 0) ∧
    (env.inputFile = none → (mainRun env).exitCode = 0) ∧
    (env.browserLaunches = false → (mainRun env).exitCode = 0) ∧
    (∀ lines, env.inputFile = some lines → (parseDomains lines).isEmpty = false →
      env.browserLaunches = true → (∀ d, env.tool d = ToolResult.notFound) →
      (mainRun env).exitCode = 1) := by
  refine ⟨?_, ?_, ?_, ?_⟩
  · intro h
    cases hin : env.inputFile with
    | none => simp [mainRun, hin]
    | some lines =>
        by_cases he : (parseDomains lines).isEmpty
        · simp [mainRun, hin, he]
        · cases hb : env.browserLaunches
          · simp [mainRun, hin, he, hb]
          · have := enumLoop_no_fatal (parseDomains lines) env.tool h
            simp [mainRun, hin, he, hb, this]
  · intro h; simp [mainRun, h]
  · intro h
    cases hin : env.inputFile with
    | none => simp [mainRun, hin]
    | some lines =>
        by_cases he : (parseDomains lines).isEmpty <;> simp [mainRun, hin, he, h]
  · intro lines hin he hb htool
    cases hds : parseDomains lines with
    | nil => rw [hds] at he; simp at he
    | cons d rest =>
        have hd := htool d
        simp [mainRun, hin, hds, he, hb, enumLoop, hd, run_rapiddns]

/-- C4 witness. -/
theorem c4_exit_codes_witness :
    (mainRun (Env.mk (some ["example.com".data]) true
      (fun _ => ToolResult.exited 0 ["a.example.com".data] []))).exitCode = 0 ∧
    (mainRun (Env.mk (some ["example.com".data]) true
      (fun _ => ToolResult.notFound))).exitCode = 1 := by
  constructor
  · exact (c4_exit_codes (Env.mk (some ["example.com".data]) true
      (fun _ => ToolResult.exited 0 ["a.example.com".data] []))).1
      (fun d h => ToolResult.noConfusion h)
  · exact (c4_exit_codes (Env.mk (some ["example.com".data]) true
      (fun _ => ToolResult.notFound))).2.2.2 ["example.com".data] rfl (by decide)
      rfl (fun _ => rfl)

/-- C3 witness. -/
theorem c3_cleanup_witness :
    List.Sublist [CapEvent.pageClose, CapEvent.ctxClose, CapEvent.relCap]
      (take_screenshot (CapBehavior.success 5)).1 :=
  (c3_cleanup (CapBehavior.success 5)).2.2.2 (by decide)

/-- C5: for every candidate and every browser behaviour — including an
HTTP layer that would answer 404 on both protocols — `check_subdomain`
makes at most one `take_screenshot` call and at most one
`send_to_discord` call; a capture happens exactly when the candidate's
outcome is a Confirmed404, positioned after that protocol's own GET;
and an alert happens exactly when additionally the capture returned
bytes. -/
theorem c5_at_most_one_capture_alert (f : Proto → HttpResult) (cb : CapBehavior) :
    captureCount (check_subdomain f cb) ≤ 1 ∧
    alertCount (check_subdomain f cb) ≤ 1 ∧
    (captureCount (check_subdomain f cb) =
      if probeOutcome f = .abandoned then 0 else 1) ∧
    (∀ p, probeOutcome f = .confirmed404 p →
      List.Sublist [PEvent.get p, PEvent.capE p .acqCap] (check_subdomain f cb)) ∧
    (alertCount (check_subdomain f cb) =
      if probeOutcome f = .abandoned then 0
      else if ((take_screenshot cb).2).isSome then 1 else 0) := by
  cases h1 : is404 (f .https) <;> cases h2 : is404 (f .http) <;> cases cb <;>
    simp [check_subdomain, attempt, probeOutcome, take_screenshot, captureCount,
      alertCount, h1, h2] <;> decide

/-- C5 witness: with 404 on both protocols and a successful capture,
exactly one capture and one alert occur. -/
theorem c5_at_most_one_capture_alert_witness :
    captureCount (check_subdomain (fun _ => HttpResult.status 404)
      (CapBehavior.success 9)) = 1 ∧
    alertCount (check_subdomain (fun _ => HttpResult.status 404)
      (CapBehavior.success 9)) = 1 := by
  have h := c5_at_most_one_capture_alert (fun _ => HttpResult.status 404)
    (CapBehavior.success 9)
  refine ⟨?_, ?_⟩
  · rw [h.2.2.1]; decide
  · rw [h.2.2.2.2]; decide

/-- C6: for every candidate, the HTTPS GET is always issued, and
whenever the HTTP GET is issued it comes strictly after the HTTPS one;
a connection-level failure on HTTPS is non-terminal (HTTP is then
attempted); and if both protocols fail at connection level the outcome
is Abandoned with no capture and no alert. -/
theorem c6_https_before_http (f : Proto → HttpResult) (cb : CapBehavior) :
    PEvent.get .https ∈ check_subdomain f cb ∧
    (PEvent.get .http ∈ check_subdomain f cb →
      List.Sublist [PEvent.get .https, PEvent.get .http] (check_subdomain f cb)) ∧
    (f .https = .connectError → PEvent.get .http ∈ check_subdomain f cb) ∧
    (f .https = .connectError → f .http = .connectError →
      probeOutcome f = .abandoned ∧ captureCount (check_subdomain f cb) = 0 ∧
      alertCount (check_subdomain f cb) = 0) := by
  refine ⟨?_, ?_, ?_, ?_⟩
  · cases h1 : is404 (f .https) <;> cases h2 : is404 (f .http) <;> cases cb <;>
      simp [check_subdomain, attempt, take_screenshot, h1, h2]
  · cases h1 : is404 (f .https) <;> cases h2 : is404 (f .http) <;> cases cb <;>
      simp [check_subdomain, attempt, take_screenshot, h1, h2]
  · intro h3
    have h1 : is404 (f .https) = false := by rw [h3]; rfl
    cases h2 : is404 (f .http) <;>
      simp [check_subdomain, attempt, h1, h2]
  · intro h3 h4
    have h1 : is404 (f .https) = false := by rw [h3]; rfl
    have h2 : is404 (f .http) = false := by rw [h4]; rfl
    simp [check_subdomain, attempt, probeOutcome, captureCount, alertCount, h1, h2]

/-- C6 witness. -/
theorem c6_https_before_http_witness :
    PEvent.get .http ∈
      check_subdomain (fun _ => HttpResult.connectError) CapBehavior.ctxFail ∧
    probeOutcome (fun _ => HttpResult.connectError) = .abandoned := by
  have h := c6_https_before_http (fun _ => HttpResult.connectError) CapBehavior.ctxFail
  exact ⟨h.2.2.1 rfl, (h.2.2.2 rfl rfl).1⟩

/-- Every subdomain the enumeration loop schedules a check task for
passes the eligibility test of `main` (line 232). -/
theorem enumLoop_scheduled_valid (ds : List PyStr) (tool : PyStr → ToolResult)
    (s : PyStr) : s ∈ (enumLoop ds tool).2.1 → validSub s = true := by
  induction ds with
  | nil => intro h; simp [enumLoop] at h
  | cons d rest ih =>
      intro h
      cases hr : (run_rapiddns d (tool d)).2 with
      | fatalExit c => simp [enumLoop, hr] at h
      | subs l =>
          simp only [enumLoop, hr] at h
          rcases List.mem_append.1 h with hl | hr2
          · exact (List.mem_filter.1 hl).2
          · exact ih hr2

/-- Every subdomain a whole `main` run schedules a check task for
passes the eligibility test. -/
theorem mainRun_scheduled_valid (env : Env) (s : PyStr) :
    s ∈ (mainRun env).scheduled → validSub s = true := by
  intro h
  cases hin : env.inputFile with
  | none => simp [mainRun, hin] at h
  | some lines =>
      by_cases he : (parseDomains lines).isEmpty
      · simp [mainRun, hin, he] at h
      · cases hb : env.browserLaunches
        · simp [mainRun, hin, he, hb] at h
        · cases hf : (enumLoop (parseDomains lines) env.tool).2.2 with
          | none =>
              simp [mainRun, hin, he, hb, hf] at h
              exact enumLoop_scheduled_valid (parseDomains lines) env.tool s h
          | some c =>
              simp [mainRun, hin, he, hb, hf] at h
              exact enumLoop_scheduled_valid (parseDomains lines) env.tool s h

/-- C7: a malformed candidate — empty, containing no `.`, or starting
or ending with `.` — is never scheduled for probing: `main` discards it
before any `check_subdomain` task is created, in every environment. -/
theorem c7_malformed_never_probed (env : Env) (s : PyStr)
    (h : s.isEmpty = true ∨ ('.' ∉ s) ∨
      pyStartsWith '.' s = true ∨ pyEndsWith '.' s = true) :
    s ∉ (mainRun env).scheduled := by
  intro hmem
  have hv := mainRun_scheduled_valid env s hmem
  have hf : validSub s = false := by
    rcases h with h | h | h | h <;> simp [validSub, h]
  rw [hv] at hf
  cases hf

/-- C7 witness: a candidate starting with `.` that the tool reports is
not scheduled. -/
theorem c7_malformed_never_probed_witness :
    ".bad".data ∉ (mainRun (Env.mk (some ["d.com".data]) true
      (fun _ => ToolResult.exited 0 [".bad".data, "ok.d.com".data] []))).scheduled :=
  c7_malformed_never_probed
    (Env.mk (some ["d.com".data]) true
      (fun _ => ToolResult.exited 0 [".bad".data, "ok.d.com".data] []))
    ".bad".data (Or.inr (Or.inr (Or.inl (by decide))))

/-- C8: in every reachable state of the two-pool transition system, the
number of held probe slots never exceeds `HTTPX_CONCURRENCY` (100) and
the number of held capture slots never exceeds
`SCREENSHOT_CONCURRENCY` (5): acquisition is only enabled below
capacity (a task at capacity suspends; no failing transition exists). -/
theorem c8_pool_capacity (s : PoolState) (h : poolReachable s) :
    s.probeHeld ≤ HTTPX_CONCURRENCY ∧ s.capHeld ≤ SCREENSHOT_CONCURRENCY := by
  have h' : Relation.ReflTransGen PoolStep initPool s := h
  clear h
  induction h' with
  | refl => exact ⟨Nat.zero_le _, Nat.zero_le _⟩
  | tail _ hstep ih =>
      cases hstep with
      | acqProbe hlt => exact ⟨hlt, ih.2⟩
      | relProbe hpos => exact ⟨Nat.le_trans (Nat.sub_le _ _) ih.1, ih.2⟩
      | acqCap hlt => exact ⟨ih.1, hlt⟩
      | relCap hpos => exact ⟨ih.1, Nat.le_trans (Nat.sub_le _ _) ih.2⟩

/-- C8 witness: the state with one probe slot and one capture slot held
is reachable and within both capacities. -/
theorem c8_pool_capacity_witness :
    (PoolState.mk 1 1).probeHeld ≤ HTTPX_CONCURRENCY ∧
    (PoolState.mk 1 1).capHeld ≤ SCREENSHOT_CONCURRENCY :=
  c8_pool_capacity (PoolState.mk 1 1)
    (Relation.ReflTransGen.tail
      (Relation.ReflTransGen.tail Relation.ReflTransGen.refl
        (PoolStep.acqProbe initPool (by decide)))
      (PoolStep.acqCap (PoolState.mk 1 0) (by decide)))

/-- C9: for every root domain, a non-zero exit of the enumeration tool
makes `run_rapiddns` log the captured stderr text (stripped, embedded
in the error line) and return an empty result, and the enumeration loop
then continues unchanged with the remaining domains; a missing tool
binary instead makes `run_rapiddns` call `sys.exit(1)`, aborting the
loop at that domain with fatal code 1 and nothing further scheduled. -/
theorem c9_enum_failure (domain err : PyStr) (out : List PyStr) (code : Nat)
    (hc : code ≠ 0) :
    (run_rapiddns domain (.exited code out err) =
      ([rapidErrLog domain err], RapidResult.subs []) ∧
     ∃ pre, rapidErrLog domain err = pre ++ pyStrip err) ∧
    (∀ rest tool, tool domain = ToolResult.exited code out err →
      enumLoop (domain :: rest) tool =
        (domain :: (enumLoop rest tool).1, (enumLoop rest tool).2.1,
          (enumLoop rest tool).2.2)) ∧
    run_rapiddns domain ToolResult.notFound =
      (["[!] Error: rapiddns command not found".data], RapidResult.fatalExit 1) ∧
    (∀ rest tool, tool domain = ToolResult.notFound →
      enumLoop (domain :: rest) tool = ([domain], [], some 1)) := by
  refine ⟨⟨?_, ⟨"[!] Error running rapiddns for ".data ++ domain ++ ": ".data, ?_⟩⟩,
    ?_, ?_, ?_⟩
  · simp [run_rapiddns, hc]
  · simp [rapidErrLog]
  · intro rest tool ht
    simp [enumLoop, ht, run_rapiddns, hc]
  · rfl
  · intro rest tool ht
    simp [enumLoop, ht, run_rapiddns]

/-- C9 witness. -/
theorem c9_enum_failure_witness :
    run_rapiddns "d.com".data (.exited 2 [] "boom".data) =
      ([rapidErrLog "d.com".data "boom".data], RapidResult.subs []) ∧
    enumLoop ["d.com".data] (fun _ => ToolResult.notFound) =
      (["d.com".data], [], some 1) := by
  have h := c9_enum_failure "d.com".data "boom".data [] 2 (by decide)
  exact ⟨h.1.1, h.2.2.2 [] (fun _ => ToolResult.notFound) rfl⟩

/-- C10: in every `check_subdomain` trace, every capture step and every
alert step happens while the probe-pool slot acquired for the 404
protocol attempt is still held: at any such event the number of
probe-slot acquisitions in the preceding prefix strictly exceeds the
number of releases. -/
theorem c10_capture_inside_probe_slot (f : Proto → HttpResult) (cb : CapBehavior) :
    ∀ i : Nat, i < (check_subdomain f cb).length →
      isCapOrAlert ((check_subdomain f cb).getD i (PEvent.get .https)) = true →
      relProbeCount ((check_subdomain f cb).take i) <
        acqProbeCount ((check_subdomain f cb).take i) := by
  cases h1 : is404 (f .https) <;> cases h2 : is404 (f .http) <;> cases cb <;>
    simp only [check_subdomain, attempt, take_screenshot, h1, h2] <;> decide

/-- C10 witness: at the alert step of a confirmed-404 candidate the
probe slot is held. -/
theorem c10_capture_inside_probe_slot_witness :
    relProbeCount ((check_subdomain (fun _ => HttpResult.status 404)
      (CapBehavior.success 3)).take 10) <
    acqProbeCount ((check_subdomain (fun _ => HttpResult.status 404)
      (CapBehavior.success 3)).take 10) :=
  c10_capture_inside_probe_slot (fun _ => HttpResult.status 404)
    (CapBehavior.success 3) 10 (by decide) (by decide)
